import Mathlib

/-
Verification of the slideshow core of the panzoom repository
(src/panzoom/slideshow.py, configuration types from src/panzoom/config.py).

The Python source is shallowly embedded: Python floats are modelled as
rationals, Python ints as Nat or Int, Python strings as Lean strings with
character-level helper functions (Python string methods such as lower,
upper, endswith and lexicographic comparison operate on code points, which
the helpers below reproduce on the list of characters of a string).
Randomized choices (random.choice, random.shuffle) are modelled as explicit
oracle parameters, and the filesystem as an explicit record of predicates.
-/

namespace PanZoom

/-! ## Character-level string helpers (Python str.lower, str.upper,
str.endswith, and lexicographic comparison on code points) -/

/-- ASCII lower-casing of one character, as Python str.lower acts on the
ASCII range used by the extension sets of the source. -/
def lowerChar (c : Char) : Char :=
  if 65 ≤ c.toNat ∧ c.toNat ≤ 90 then Char.ofNat (c.toNat + 32) else c

/-- Python str.lower on the strings used here (ASCII extensions). -/
def strLower (s : String) : String := ⟨s.data.map lowerChar⟩

/-- ASCII upper-casing of one character, as Python str.upper. -/
def upperChar (c : Char) : Char :=
  if 97 ≤ c.toNat ∧ c.toNat ≤ 122 then Char.ofNat (c.toNat - 32) else c

/-- Python str.upper on the strings used here (ASCII extensions). -/
def strUpper (s : String) : String := ⟨s.data.map upperChar⟩

/-- Python str.endswith: the final characters of s coincide with suf. -/
def strEndsWith (s suf : String) : Bool :=
  suf.data.length ≤ s.data.length &&
    s.data.drop (s.data.length - suf.data.length) == suf.data

/-- Lexicographic comparison of character lists by code point, the order
Python uses to compare strings with the sorted builtin. -/
def lexLe : List Char → List Char → Bool
  | [], _ => true
  | _ :: _, [] => false
  | a :: as, b :: bs =>
    if a.toNat < b.toNat then true
    else if b.toNat < a.toNat then false
    else lexLe as bs

/-- Python string comparison a <= b. -/
def strLe (a b : String) : Bool := lexLe a.data b.data

/-- Insert one element into a list sorted by strLe, keeping it sorted.
Together with sortStrings this realises the Python builtin sorted. -/
def insertSorted (x : String) : List String → List String
  | [] => [x]
  | y :: ys => if strLe x y then x :: y :: ys else y :: insertSorted x ys

/-- The Python builtin sorted on a list of strings (insertion sort; the
result is the unique sorted permutation once duplicates are removed). -/
def sortStrings (l : List String) : List String := l.foldr insertSorted []

/-- The final component of a path (Python pathlib name): the characters
after the last path separator. -/
def lastComponent (sep : Char) (l : List Char) : List Char :=
  (l.reverse.takeWhile (fun c => !(c == sep))).reverse

/-- Index of the last occurrence of a dot, as Python str.rfind used by
pathlib suffix. -/
def rfindDot (l : List Char) : Option Nat :=
  match l.reverse.findIdx? (fun c => c == '.') with
  | none => none
  | some j => some (l.length - 1 - j)

/-- Python pathlib Path(p).suffix: the extension of the final component
including the dot, empty when the name has no dot, starts with its only
dot, or ends with a dot. -/
def pathSuffix (p : String) : String :=
  let name := lastComponent '/' p.data
  match rfindDot name with
  | none => ""
  | some i => if 0 < i ∧ i < name.length - 1 then ⟨name.drop i⟩ else ""

/-! ## Order facts about lexLe, insertSorted and sortStrings -/

theorem lexLe_total (a b : List Char) : lexLe a b = true ∨ lexLe b a = true := by
  induction a generalizing b with
  | nil => left; rfl
  | cons x xs ih =>
    cases b with
    | nil => right; rfl
    | cons y ys =>
      rcases Nat.lt_trichotomy x.toNat y.toNat with h | h | h
      · left; simp [lexLe, h]
      · have h1 : ¬ x.toNat < y.toNat := by omega
        have h2 : ¬ y.toNat < x.toNat := by omega
        rcases ih ys with hc | hc
        · left; simp [lexLe, h1, h2, hc]
        · right; simp [lexLe, h1, h2, hc]
      · right; simp [lexLe, h]

theorem lexLe_trans {a b c : List Char} (hab : lexLe a b = true)
    (hbc : lexLe b c = true) : lexLe a c = true := by
  induction a generalizing b c with
  | nil => rfl
  | cons x xs ih =>
    cases b with
    | nil => simp [lexLe] at hab
    | cons y ys =>
      cases c with
      | nil => simp [lexLe] at hbc
      | cons z zs =>
        simp only [lexLe] at hab hbc ⊢
        rcases Nat.lt_trichotomy x.toNat y.toNat with h1 | h1 | h1
        · rcases Nat.lt_trichotomy y.toNat z.toNat with h2 | h2 | h2
          · simp [show x.toNat < z.toNat by omega]
          · simp [show x.toNat < z.toNat by omega]
          · simp [show ¬ y.toNat < z.toNat by omega, h2] at hbc
        · rcases Nat.lt_trichotomy y.toNat z.toNat with h2 | h2 | h2
          · simp [show x.toNat < z.toNat by omega]
          · have hnxz : ¬ x.toNat < z.toNat := by omega
            have hnzx : ¬ z.toNat < x.toNat := by omega
            rw [if_neg (show ¬ x.toNat < y.toNat by omega),
              if_neg (show ¬ y.toNat < x.toNat by omega)] at hab
            rw [if_neg (show ¬ y.toNat < z.toNat by omega),
              if_neg (show ¬ z.toNat < y.toNat by omega)] at hbc
            rw [if_neg hnxz, if_neg hnzx]
            exact ih hab hbc
          · simp [show ¬ y.toNat < z.toNat by omega, h2] at hbc
        · simp [show ¬ x.toNat < y.toNat by omega, h1] at hab

theorem strLe_total (a b : String) : strLe a b = true ∨ strLe b a = true :=
  lexLe_total a.data b.data

theorem strLe_trans {a b c : String} (hab : strLe a b = true)
    (hbc : strLe b c = true) : strLe a c = true :=
  lexLe_trans hab hbc

theorem perm_insertSorted (x : String) (l : List String) :
    (insertSorted x l).Perm (x :: l) := by
  induction l with
  | nil => exact List.Perm.refl _
  | cons y ys ih =>
    by_cases h : strLe x y = true
    · simp [insertSorted, h]
    · simp only [insertSorted, h, if_false, Bool.false_eq_true]
      exact (ih.cons y).trans (List.Perm.swap x y ys)

theorem mem_insertSorted {x z : String} {l : List String} :
    z ∈ insertSorted x l ↔ z = x ∨ z ∈ l := by
  have := (perm_insertSorted x l).mem_iff (a := z)
  simpa using this

theorem pairwise_insertSorted (x : String) :
    ∀ {l : List String}, l.Pairwise (fun a b => strLe a b = true) →
      (insertSorted x l).Pairwise (fun a b => strLe a b = true) := by
  intro l
  induction l with
  | nil => intro _; simp [insertSorted]
  | cons y ys ih =>
    intro h
    rcases List.pairwise_cons.mp h with ⟨hy, hys⟩
    by_cases hxy : strLe x y = true
    · simp only [insertSorted, hxy, if_true]
      refine List.pairwise_cons.mpr ⟨?_, h⟩
      intro z hz
      rcases List.mem_cons.mp hz with rfl | hz
      · exact hxy
      · exact strLe_trans hxy (hy z hz)
    · simp only [insertSorted, hxy, if_false]
      refine List.pairwise_cons.mpr ⟨?_, ih hys⟩
      intro z hz
      rcases mem_insertSorted.mp hz with hz | hz
      · rw [hz]
        rcases strLe_total x y with hc | hc
        · exact absurd hc hxy
        · exact hc
      · exact hy z hz

theorem perm_sortStrings (l : List String) : (sortStrings l).Perm l := by
  induction l with
  | nil => exact List.Perm.refl _
  | cons x xs ih =>
    exact (perm_insertSorted x (sortStrings xs)).trans (ih.cons x)

theorem pairwise_sortStrings (l : List String) :
    (sortStrings l).Pairwise (fun a b => strLe a b = true) := by
  induction l with
  | nil => simp [sortStrings]
  | cons x xs ih => exact pairwise_insertSorted x ih

theorem mem_sortStrings {z : String} {l : List String} :
    z ∈ sortStrings l ↔ z ∈ l :=
  (perm_sortStrings l).mem_iff

theorem nodup_sortStrings {l : List String} (h : l.Nodup) :
    (sortStrings l).Nodup :=
  (perm_sortStrings l).symm.nodup h

/-! ## Data model (config.py VideoConfig and TitleConfig, slideshow.py
ImageInfo and ProgressInfo) -/

/-- VideoConfig from config.py lines 12 to 38: video generation settings.
Floats become rationals, ints become Int. -/
structure VideoConfig where
  duration : ℚ := 10
  crossfade : ℚ := 2
  fps : Int := 60
  width : Int := 1920
  height : Int := 1080
  zoom_intensity : ℚ := 8 / 100
  pan_intensity : ℚ := 25 / 100
  zoom_direction : String := "alternate"
  pan_direction : String := "alternate"
  vertical_position : ℚ := 3 / 10
  transition : String := "fade"
  shuffle : Bool := false
  reverse : Bool := false
  crf : Int := 18
  preset : String := "slow"
  audio_bitrate : String := "320k"
deriving DecidableEq

/-- TitleConfig from config.py lines 79 to 91. -/
structure TitleConfig where
  enabled : Bool := false
  text : String := ""
  subtitle : String := ""
  duration : ℚ := 4
  font_size : Int := 72
  subtitle_size : Int := 36
  font_color : String := "white"
  background_color : String := "black"
  fade_in : ℚ := 1
  fade_out : ℚ := 1
deriving DecidableEq

/-- The default VideoConfig of config.py (all dataclass defaults). -/
def defaultVideoConfig : VideoConfig := {}

/-- ImageInfo from slideshow.py lines 20 to 27: per-image effect data. -/
structure ImageInfo where
  path : String
  index : Nat
  zoom_in : Bool
  pan_left_to_right : Bool
  transition : String := "fade"
deriving DecidableEq

/-- ProgressInfo from slideshow.py lines 30 to 38: the mutable progress
snapshot updated in place by the progress parser. -/
structure ProgressInfo where
  frame : Nat := 0
  fps : ℚ := 0
  time_encoded : ℚ := 0
  speed : ℚ := 0
  percent : ℚ := 0
  eta_seconds : ℚ := 0
deriving DecidableEq

/-- The keys of the TRANSITIONS dict of config.py lines 111 to 137
(the French description values play no role in the logic). -/
def TRANSITIONS : List String :=
  ["fade", "fadeblack", "fadewhite", "wipeleft", "wiperight", "wipeup",
   "wipedown", "slideleft", "slideright", "slideup", "slidedown",
   "smoothleft", "smoothright", "circlecrop", "circleclose", "circleopen",
   "dissolve", "pixelize", "radial", "hblur", "hlslice", "vlslice",
   "zoomin", "squeezeh", "squeezev"]

/-- SUPPORTED_FORMATS set of slideshow.py line 44 (image extensions). -/
def SUPPORTED_FORMATS : List String :=
  [".png", ".jpg", ".jpeg", ".webp", ".bmp", ".tiff"]

/-- SUPPORTED_AUDIO set of slideshow.py line 45 (audio extensions). -/
def SUPPORTED_AUDIO : List String :=
  [".wav", ".mp3", ".aac", ".flac", ".ogg", ".m4a"]

/-! ## Effect policy resolver (SlideshowGenerator.prepare_images,
slideshow.py lines 75 to 126).  The calls to random.choice are modelled by
oracle functions indexed by the loop position, and random.shuffle by an
arbitrary caller-supplied reordering function. -/

/-- Zoom direction for the image at position i (slideshow.py lines 92 to
99): fixed for the in and out policies, an oracle coin flip for random,
and index parity for the default alternate policy. -/
def zoomFlag (cfg : VideoConfig) (zoomCoin : Nat → Bool) (i : Nat) : Bool :=
  if cfg.zoom_direction = "in" then true
  else if cfg.zoom_direction = "out" then false
  else if cfg.zoom_direction = "random" then zoomCoin i
  else i % 2 == 0

/-- Pan direction for the image at position i (slideshow.py lines 102 to
109). -/
def panFlag (cfg : VideoConfig) (panCoin : Nat → Bool) (i : Nat) : Bool :=
  if cfg.pan_direction = "left" then true
  else if cfg.pan_direction = "right" then false
  else if cfg.pan_direction = "random" then panCoin i
  else i % 2 == 0

/-- Transition for the image at position i (slideshow.py lines 112 to
115): an oracle draw from the transition list for the random policy,
else the configured transition. -/
def transFor (cfg : VideoConfig) (transDraw : Nat → String) (i : Nat) : String :=
  if cfg.transition = "random" then transDraw i else cfg.transition

/-- The enumeration loop of prepare_images (slideshow.py lines 89 to
123), building one ImageInfo per path with a dense running index. -/
def prepareAux (cfg : VideoConfig) (zoomCoin panCoin : Nat → Bool)
    (transDraw : Nat → String) : Nat → List String → List ImageInfo
  | _, [] => []
  | i, path :: rest =>
    { path := path, index := i,
      zoom_in := zoomFlag cfg zoomCoin i,
      pan_left_to_right := panFlag cfg panCoin i,
      transition := transFor cfg transDraw i }
      :: prepareAux cfg zoomCoin panCoin transDraw (i + 1) rest

/-- SlideshowGenerator.prepare_images (slideshow.py lines 75 to 126):
raises ValueError on an empty list, applies shuffle (oracle reordering)
or reverse, then assigns per-image effects. -/
def prepare_images (cfg : VideoConfig) (shuffleOracle : List String → List String)
    (zoomCoin panCoin : Nat → Bool) (transDraw : Nat → String)
    (image_paths : List String) : Except String (List ImageInfo) :=
  if image_paths = [] then .error "No images found"
  else
    let ordered :=
      if cfg.shuffle then shuffleOracle image_paths
      else if cfg.reverse then image_paths.reverse
      else image_paths
    .ok (prepareAux cfg zoomCoin panCoin transDraw 0 ordered)

/-! ## Cross-fade chain of the graph expression builder
(SlideshowGenerator build filter complex, slideshow.py lines 176 to 196).
Each loop iteration of the source emits one xfade clause; the clause data
(source label, destination index, transition, fade duration, time offset)
is recorded before being rendered into the clause string. -/

/-- One xfade clause of the cross-fade chain. -/
structure XfadeClause where
  srcLabel : String
  dstIdx : Nat
  transition : String
  fadeDuration : ℚ
  offset : ℚ
deriving DecidableEq

/-- The loop of slideshow.py lines 181 to 192: for each image after the
first, emit an xfade clause at the running offset t, falling back to the
fade transition when the recorded transition is not a key of TRANSITIONS,
then advance t by duration minus crossfade. -/
def xfadeChainFrom (cfg : VideoConfig) :
    List String → Nat → String → ℚ → List XfadeClause
  | [], _, _, _ => []
  | tname :: rest, i, cur, t =>
    let tr := if TRANSITIONS.contains tname then tname else "fade"
    { srcLabel := cur, dstIdx := i, transition := tr,
      fadeDuration := cfg.crossfade, offset := t }
      :: xfadeChainFrom cfg rest (i + 1)
           ("[x" ++ Nat.repr i ++ "]") (t + (cfg.duration - cfg.crossfade))

/-- The cross-fade chain emitted for an image list (slideshow.py lines
177 to 192): empty with fewer than two images, else one clause per image
after the first with initial offset duration minus crossfade. -/
def xfadeChain (cfg : VideoConfig) (images : List ImageInfo) : List XfadeClause :=
  if 1 < images.length then
    xfadeChainFrom cfg ((images.drop 1).map (fun im => im.transition)) 1 "[v0]"
      (cfg.duration - cfg.crossfade)
  else []

/-! ## Progress stream parser (SlideshowGenerator parse ffmpeg progress,
slideshow.py lines 280 to 312).  Each regular-expression search of the
source either matches and yields the captured value or does not match;
a consumed line is therefore modelled by the four optional capture
results. -/

/-- The four optional regex captures of one progress line: frame count,
instantaneous fps, elapsed time as hours, minutes and seconds, and the
speed multiplier. -/
structure LineFields where
  frame_field : Option Nat := none
  fps_field : Option ℚ := none
  time_field : Option (Nat × Nat × ℚ) := none
  speed_field : Option ℚ := none
deriving DecidableEq

/-- Frame update block (slideshow.py lines 284 to 287). -/
def applyFrame (info : ProgressInfo) : Option Nat → ProgressInfo
  | none => info
  | some n => { info with frame := n }

/-- Fps update block (slideshow.py lines 289 to 292). -/
def applyFps (info : ProgressInfo) : Option ℚ → ProgressInfo
  | none => info
  | some f => { info with fps := f }

/-- Time update block (slideshow.py lines 294 to 305): sets the encoded
time, then recomputes percent (clamped to 100) when the total duration is
positive, and the ETA when the instantaneous fps is also positive. -/
def applyTime (cfg : VideoConfig) (total_duration : ℚ) (info : ProgressInfo) :
    Option (Nat × Nat × ℚ) → ProgressInfo
  | none => info
  | some (h, m, s) =>
    let t : ℚ := h * 3600 + m * 60 + s
    let info1 := { info with time_encoded := t }
    if 0 < total_duration then
      let info2 := { info1 with percent := min 100 (t / total_duration * 100) }
      if 0 < info2.fps then
        let remaining := total_duration - t
        { info2 with eta_seconds :=
            if 0 < info2.fps then remaining / (info2.fps / (cfg.fps : ℚ)) else 0 }
      else info2
    else info1

/-- Speed update block (slideshow.py lines 307 to 310). -/
def applySpeed (info : ProgressInfo) : Option ℚ → ProgressInfo
  | none => info
  | some s => { info with speed := s }

/-- SlideshowGenerator parse ffmpeg progress (slideshow.py lines 280 to
312): the four independent update blocks applied in source order to the
running snapshot. -/
def parse_ffmpeg_progress (cfg : VideoConfig) (info : ProgressInfo)
    (line : LineFields) (total_duration : ℚ) : ProgressInfo :=
  applySpeed
    (applyTime cfg total_duration
      (applyFps (applyFrame info line.frame_field) line.fps_field)
      line.time_field)
    line.speed_field

/-! ## Duration estimate (SlideshowGenerator.estimate_duration,
slideshow.py lines 481 to 493). -/

/-- The title duration added when a title is attached and enabled
(slideshow.py lines 490 to 491). -/
def titleAddition : Option TitleConfig → ℚ
  | some t => if t.enabled then t.duration else 0
  | none => 0

/-- SlideshowGenerator.estimate_duration (slideshow.py lines 481 to 493):
zero for an empty image list, otherwise duration times n minus crossfade
times n minus one, plus the enabled title duration, clamped below at 0. -/
def estimate_duration (cfg : VideoConfig) (title : Option TitleConfig)
    (images : List ImageInfo) : ℚ :=
  if images = [] then 0
  else
    let n : ℚ := images.length
    let total := cfg.duration * n - cfg.crossfade * (n - 1)
    let total2 :=
      match title with
      | some t => if t.enabled then total + t.duration else total
      | none => total
    max 0 total2

/-- The unclamped estimate formula (the value of the total variable of
slideshow.py lines 487 to 491 before the final clamp of line 493). -/
def rawEstimate (cfg : VideoConfig) (title : Option TitleConfig)
    (images : List ImageInfo) : ℚ :=
  cfg.duration * images.length - cfg.crossfade * ((images.length : ℚ) - 1)
    + titleAddition title

/-! ## Image discovery (SlideshowGenerator.find_images, slideshow.py
lines 60 to 73) over an abstract filesystem. -/

/-- The filesystem seen through pathlib: whether a path is a regular
file, whether it is a directory, and the paths its glob enumerates when
it is a directory (full path strings, as str(p) of the source). -/
structure FileSystem where
  isFile : String → Bool
  isDir : String → Bool
  dirEntries : String → List String

/-- Python pathlib Path.exists for the paths used here: a regular file
or a directory. -/
def pathExists (fs : FileSystem) (p : String) : Bool :=
  fs.isFile p || fs.isDir p

/-- The glob loop of slideshow.py lines 69 to 71: for each supported
extension, the entries matching the lowercase pattern then those matching
the uppercase pattern, concatenated over the extension set. -/
def globCollect (entries : List String) : List String → List String
  | [] => []
  | ext :: rest =>
    entries.filter (fun s => strEndsWith s ext)
      ++ entries.filter (fun s => strEndsWith s (strUpper ext))
      ++ globCollect entries rest

/-- SlideshowGenerator.find_images (slideshow.py lines 60 to 73): a file
input yields itself when its lowercased extension is supported; a
directory input yields the glob matches, deduplicated and sorted; any
other path yields the empty list. -/
def find_images (fs : FileSystem) (path : String) : List String :=
  if fs.isFile path then
    if SUPPORTED_FORMATS.contains (strLower (pathSuffix path)) then [path] else []
  else if fs.isDir path then
    sortStrings ((globCollect (fs.dirEntries path) SUPPORTED_FORMATS).dedup)
  else []

/-! ## Pre-launch validation of the generation driver
(SlideshowGenerator.generate, slideshow.py lines 339 to 351).  The error
taxonomy names of the specification label the literal messages of the
source: InputNotFound for "Audio file not found", UnsupportedFormat for
"Unsupported audio format", NoImagesFound for "No images found in". -/

/-- The pre-launch failure classification of the spec error taxonomy. -/
inductive GenError where
  | inputNotFound
  | unsupportedFormat
  | noImagesFound
deriving DecidableEq

/-- Outcome of the validation prefix of generate: the classified failure,
if any, and whether control reaches the subprocess launch of slideshow.py
line 417. -/
structure PreflightResult where
  error : Option GenError
  launched : Bool
deriving DecidableEq

/-- The validation prefix of SlideshowGenerator.generate (slideshow.py
lines 339 to 351), in source order: audio existence, audio extension,
image discovery; each failure returns before any subprocess is started. -/
def generate_preflight (fs : FileSystem) (image_path audio_path : String) :
    PreflightResult :=
  if pathExists fs audio_path = false then
    { error := some .inputNotFound, launched := false }
  else if SUPPORTED_AUDIO.contains (strLower (pathSuffix audio_path)) = false then
    { error := some .unsupportedFormat, launched := false }
  else if find_images fs image_path = [] then
    { error := some .noImagesFound, launched := false }
  else
    { error := none, launched := true }

/-! ## Preview substitution and restoration across the exit paths of
generate (slideshow.py lines 356 to 460). -/

/-- The preview parameter substitution of slideshow.py lines 363 to 367. -/
def previewSubstitute (cfg : VideoConfig) : VideoConfig :=
  { cfg with
    width := 640
    height := 360
    fps := 15
    crf := 35
    preset := "ultrafast" }

/-- The exit paths of generate after the preview substitution point. -/
inductive ExitPath where
  | success
  | engineError
  | outputMissing
  | launchFailure
  | raisedException
  | cancelled
deriving DecidableEq

/-- The configuration object when generate returns, per exit path
(slideshow.py lines 356 to 460).  The restoration of lines 443 to 445
runs after the progress pump and process.communicate, so it is reached on
the success, non-zero-exit and missing-output returns, but not on the
cancellation return of line 428 nor on the two except returns of lines
457 to 460. -/
def generateFinalConfig (cfg : VideoConfig) (preview : Bool)
    (exitPath : ExitPath) : VideoConfig :=
  let working := if preview then previewSubstitute cfg else cfg
  match exitPath with
  | .cancelled => working
  | .launchFailure => working
  | .raisedException => working
  | _ =>
    if preview then
      { working with
        width := cfg.width
        height := cfg.height
        fps := cfg.fps
        crf := cfg.crf
        preset := cfg.preset }
    else working

/-! ## Cancellation flag and the progress pump loop (slideshow.py lines
337, 425 to 432 and 477 to 479).  The flag set by cancel is modelled by
the iteration index at which an external cancel request first becomes
visible to the poll (none when no request is made during the run); the
pump performs one poll per iteration and consumes one line, finishing
when the stream is exhausted. -/

/-- Result of the progress pump loop: cancelled at some poll, or ran to
completion of the stream. -/
inductive PumpResult where
  | cancelled (iter : Nat)
  | completed
deriving DecidableEq

/-- The stop flag value observed by the poll of iteration i, given the
flag value at loop entry and the iteration at which a cancel request
made during the run becomes visible. -/
def stopFlagAt (entryFlag : Bool) (cancelIter : Option Nat) (i : Nat) : Bool :=
  entryFlag ||
    match cancelIter with
    | none => false
    | some k => decide (k ≤ i)

/-- The progress pump loop of slideshow.py lines 425 to 437: poll the
stop flag, then read a line; terminate and report cancellation on a set
flag, break when the stream is exhausted. -/
def pumpLoop (entryFlag : Bool) (cancelIter : Option Nat) :
    Nat → Nat → PumpResult
  | i, 0 =>
    if stopFlagAt entryFlag cancelIter i then .cancelled i else .completed
  | i, n + 1 =>
    if stopFlagAt entryFlag cancelIter i then .cancelled i
    else pumpLoop entryFlag cancelIter (i + 1) n

/-- The run outcome of generate as a function of the flag value at call
time and the cancel requests made during the run: slideshow.py line 337
overwrites the flag with False at entry before the pump starts. -/
def generate_outcome (_preFlag : Bool) (cancelIter : Option Nat)
    (lines : Nat) : PumpResult :=
  let flagAfterEntry := false
  pumpLoop flagAfterEntry cancelIter 0 lines

/-! ## Concrete fixtures used by witnesses and counterexamples -/

/-- Three prepared images with the default alternate assignments. -/
def imgsThree : List ImageInfo :=
  [⟨"a", 0, true, true, "fade"⟩, ⟨"b", 1, false, false, "fade"⟩,
   ⟨"c", 2, true, true, "fade"⟩]

/-- Two prepared images. -/
def imgsTwo : List ImageInfo :=
  [⟨"a", 0, true, true, "fade"⟩, ⟨"b", 1, false, false, "fade"⟩]

/-- Five prepared images. -/
def imgsFive : List ImageInfo :=
  [⟨"a", 0, true, true, "fade"⟩, ⟨"b", 1, false, false, "fade"⟩,
   ⟨"c", 2, true, true, "fade"⟩, ⟨"d", 3, false, false, "fade"⟩,
   ⟨"e", 4, true, true, "fade"⟩]

/-- A configuration whose crossfade exceeds its duration per image. -/
def cfgShortFade : VideoConfig :=
  { defaultVideoConfig with duration := 1, crossfade := 3 }

/-- A filesystem holding only the audio file song.mp3. -/
def fsAudioOnly : FileSystem :=
  ⟨fun p => p == "song.mp3", fun _ => false, fun _ => []⟩

/-- A filesystem with no files and no directories. -/
def fsEmptyFS : FileSystem :=
  ⟨fun _ => false, fun _ => false, fun _ => []⟩

/-- A filesystem with one directory d holding one image whose extension
is spelled in mixed case. -/
def fsMixedCase : FileSystem :=
  ⟨fun _ => false, fun p => p == "d", fun p => if p == "d" then ["d/a.Jpg"] else []⟩

/-- A filesystem holding one image file with an upper-case extension. -/
def fsSingleFile : FileSystem :=
  ⟨fun p => p == "photo.PNG", fun _ => false, fun _ => []⟩

/-- Progress line fixture carrying all four fields. -/
def lineTime : LineFields :=
  { frame_field := some 120, fps_field := some 30,
    time_field := some (0, 0, 4), speed_field := some 2 }

/-- Progress line fixture with frame and fps but no time and no speed. -/
def lineNoTime : LineFields :=
  { frame_field := some 120, fps_field := some 30 }

/-- A prior snapshot with nonzero values in every field. -/
def infoPrev : ProgressInfo :=
  { frame := 7, fps := 5, time_encoded := 33, speed := 9, percent := 55,
    eta_seconds := 12 }

/-! ## Support lemmas -/

theorem xfadeChainFrom_map (cfg : VideoConfig) (ts : List String) :
    ∀ (i : Nat) (cur : String) (t : ℚ),
      (xfadeChainFrom cfg ts i cur t).map (fun c => (c.dstIdx, c.offset))
        = (List.range ts.length).map
            (fun k => (i + k, t + k * (cfg.duration - cfg.crossfade))) := by
  induction ts with
  | nil => intro i cur t; rfl
  | cons a rest ih =>
    intro i cur t
    simp only [xfadeChainFrom, List.map_cons, List.length_cons]
    rw [List.range_succ_eq_map]
    simp only [List.map_cons, List.map_map]
    congr 1
    · simp
    · rw [ih]
      apply List.map_congr_left
      intro k _
      simp only [Function.comp_apply, Prod.mk.injEq]
      refine ⟨by omega, by push_cast; ring⟩

theorem applyFrame_time (info : ProgressInfo) (o : Option Nat) :
    (applyFrame info o).time_encoded = info.time_encoded := by
  cases o <;> rfl

theorem applyFrame_percent (info : ProgressInfo) (o : Option Nat) :
    (applyFrame info o).percent = info.percent := by
  cases o <;> rfl

theorem applyFrame_eta (info : ProgressInfo) (o : Option Nat) :
    (applyFrame info o).eta_seconds = info.eta_seconds := by
  cases o <;> rfl

theorem applyFrame_fps (info : ProgressInfo) (o : Option Nat) :
    (applyFrame info o).fps = info.fps := by
  cases o <;> rfl

theorem applyFrame_speed (info : ProgressInfo) (o : Option Nat) :
    (applyFrame info o).speed = info.speed := by
  cases o <;> rfl

theorem applyFps_time (info : ProgressInfo) (o : Option ℚ) :
    (applyFps info o).time_encoded = info.time_encoded := by
  cases o <;> rfl

theorem applyFps_percent (info : ProgressInfo) (o : Option ℚ) :
    (applyFps info o).percent = info.percent := by
  cases o <;> rfl

theorem applyFps_eta (info : ProgressInfo) (o : Option ℚ) :
    (applyFps info o).eta_seconds = info.eta_seconds := by
  cases o <;> rfl

theorem applyFps_frame (info : ProgressInfo) (o : Option ℚ) :
    (applyFps info o).frame = info.frame := by
  cases o <;> rfl

theorem applyFps_speed (info : ProgressInfo) (o : Option ℚ) :
    (applyFps info o).speed = info.speed := by
  cases o <;> rfl

theorem applySpeed_time (info : ProgressInfo) (o : Option ℚ) :
    (applySpeed info o).time_encoded = info.time_encoded := by
  cases o <;> rfl

theorem applySpeed_percent (info : ProgressInfo) (o : Option ℚ) :
    (applySpeed info o).percent = info.percent := by
  cases o <;> rfl

theorem applySpeed_eta (info : ProgressInfo) (o : Option ℚ) :
    (applySpeed info o).eta_seconds = info.eta_seconds := by
  cases o <;> rfl

theorem applySpeed_frame (info : ProgressInfo) (o : Option ℚ) :
    (applySpeed info o).frame = info.frame := by
  cases o <;> rfl

theorem applySpeed_fps (info : ProgressInfo) (o : Option ℚ) :
    (applySpeed info o).fps = info.fps := by
  cases o <;> rfl

theorem applyTime_percent_pos (cfg : VideoConfig) (total : ℚ)
    (info : ProgressInfo) (h m : Nat) (s : ℚ) (hpos : 0 < total) :
    (applyTime cfg total info (some (h, m, s))).percent
      = min 100 (((h : ℚ) * 3600 + m * 60 + s) / total * 100) := by
  simp only [applyTime]
  rw [if_pos hpos]
  by_cases hf : (0 : ℚ) < info.fps
  · simp [hf]
  · simp [hf]

theorem applyTime_percent_nonpos (cfg : VideoConfig) (total : ℚ)
    (info : ProgressInfo) (h m : Nat) (s : ℚ) (hnp : ¬ 0 < total) :
    (applyTime cfg total info (some (h, m, s))).percent = info.percent := by
  simp only [applyTime]
  rw [if_neg hnp]

theorem applyTime_none (cfg : VideoConfig) (total : ℚ) (info : ProgressInfo) :
    applyTime cfg total info none = info := rfl

theorem applyTime_frame (cfg : VideoConfig) (total : ℚ) (info : ProgressInfo)
    (o : Option (Nat × Nat × ℚ)) :
    (applyTime cfg total info o).frame = info.frame := by
  cases o with
  | none => rfl
  | some x =>
    obtain ⟨h, m, s⟩ := x
    simp only [applyTime]
    split
    · split
      · rfl
      · rfl
    · rfl

theorem applyTime_fps (cfg : VideoConfig) (total : ℚ) (info : ProgressInfo)
    (o : Option (Nat × Nat × ℚ)) :
    (applyTime cfg total info o).fps = info.fps := by
  cases o with
  | none => rfl
  | some x =>
    obtain ⟨h, m, s⟩ := x
    simp only [applyTime]
    split
    · split
      · rfl
      · rfl
    · rfl

theorem applyTime_speed (cfg : VideoConfig) (total : ℚ) (info : ProgressInfo)
    (o : Option (Nat × Nat × ℚ)) :
    (applyTime cfg total info o).speed = info.speed := by
  cases o with
  | none => rfl
  | some x =>
    obtain ⟨h, m, s⟩ := x
    simp only [applyTime]
    split
    · split
      · rfl
      · rfl
    · rfl

theorem zoomFlag_alternate (cfg : VideoConfig) (zc : Nat → Bool) (i : Nat)
    (hz : cfg.zoom_direction = "alternate") :
    zoomFlag cfg zc i = (i % 2 == 0) := by
  unfold zoomFlag
  rw [hz]
  rfl

theorem panFlag_alternate (cfg : VideoConfig) (pc : Nat → Bool) (i : Nat)
    (hp : cfg.pan_direction = "alternate") :
    panFlag cfg pc i = (i % 2 == 0) := by
  unfold panFlag
  rw [hp]
  rfl

theorem prepareAux_parity (cfg : VideoConfig) (zc pc : Nat → Bool)
    (td : Nat → String) (hz : cfg.zoom_direction = "alternate")
    (hp : cfg.pan_direction = "alternate") :
    ∀ (l : List String) (i : Nat), ∀ img ∈ prepareAux cfg zc pc td i l,
      (img.zoom_in = true ↔ img.index % 2 = 0)
      ∧ (img.pan_left_to_right = true ↔ img.index % 2 = 0) := by
  intro l
  induction l with
  | nil => intro i img hmem; simp [prepareAux] at hmem
  | cons p rest ih =>
    intro i img hmem
    rcases List.mem_cons.mp hmem with rfl | hmem
    · constructor
      · simp only [zoomFlag_alternate cfg zc i hz]
        simp
      · simp only [panFlag_alternate cfg pc i hp]
        simp
    · exact ih (i + 1) img hmem

theorem estimate_duration_eq_max (cfg : VideoConfig) (title : Option TitleConfig)
    (images : List ImageInfo) (h : images ≠ []) :
    estimate_duration cfg title images = max 0 (rawEstimate cfg title images) := by
  unfold estimate_duration rawEstimate titleAddition
  rw [if_neg h]
  cases title with
  | none =>
    dsimp only
    congr 1
    ring
  | some t =>
    dsimp only
    by_cases ht : t.enabled = true
    · rw [if_pos ht, if_pos ht]
    · rw [if_neg ht, if_neg ht]
      congr 1
      ring

theorem mem_globCollect {x : String} (entries : List String) :
    ∀ exts : List String,
      x ∈ globCollect entries exts
        ↔ ∃ ext ∈ exts, x ∈ entries ∧
            (strEndsWith x ext = true ∨ strEndsWith x (strUpper ext) = true) := by
  intro exts
  induction exts with
  | nil => simp [globCollect]
  | cons e rest ih =>
    simp only [globCollect, List.mem_append, List.mem_filter, ih,
      List.mem_cons]
    constructor
    · rintro ((⟨hx, he⟩ | ⟨hx, he⟩) | ⟨ext, hext, hx, he⟩)
      · exact ⟨e, Or.inl rfl, hx, Or.inl he⟩
      · exact ⟨e, Or.inl rfl, hx, Or.inr he⟩
      · exact ⟨ext, Or.inr hext, hx, he⟩
    · rintro ⟨ext, hext | hext, hx, he | he⟩
      · subst hext; exact Or.inl (Or.inl ⟨hx, he⟩)
      · subst hext; exact Or.inl (Or.inr ⟨hx, he⟩)
      · exact Or.inr ⟨ext, hext, hx, Or.inl he⟩
      · exact Or.inr ⟨ext, hext, hx, Or.inr he⟩

theorem pumpLoop_no_cancel : ∀ (n i : Nat), pumpLoop false none i n = .completed := by
  intro n
  induction n with
  | zero => intro i; rfl
  | succ n ih =>
    intro i
    simpa [pumpLoop, stopFlagAt] using ih (i + 1)

theorem pumpLoop_cancel : ∀ (n i k : Nat), i ≤ k → k ≤ i + n →
    pumpLoop false (some k) i n = .cancelled k := by
  intro n
  induction n with
  | zero =>
    intro i k h1 h2
    have hik : k = i := by omega
    subst hik
    simp [pumpLoop, stopFlagAt]
  | succ n ih =>
    intro i k h1 h2
    by_cases hk : k ≤ i
    · have hik : k = i := by omega
      subst hik
      simp [pumpLoop, stopFlagAt]
    · have h3 : i + 1 ≤ k := by omega
      have h4 : k ≤ (i + 1) + n := by omega
      have hrec := ih (i + 1) k h3 h4
      simp only [pumpLoop, stopFlagAt, Bool.false_or]
      rw [if_neg (by simpa using hk)]
      exact hrec

theorem preflight_launched (fs : FileSystem) (ip ap : String) :
    (generate_preflight fs ip ap).launched = false
    ∨ (generate_preflight fs ip ap).error = none := by
  unfold generate_preflight
  split
  · exact Or.inl rfl
  · split
    · exact Or.inl rfl
    · split
      · exact Or.inl rfl
      · exact Or.inr rfl

/-! ## Claim theorems -/

/-- C1 (code bug): the spec requires the preview parameter substitution
of generate to be reverted on every exit path, but the source restores
the configuration only after the progress pump (slideshow.py lines 443
to 445), so the cancellation return of line 428 and the two except
returns of lines 457 to 460 leave the preview values (640 by 360, 15
fps, crf 35, ultrafast) on the caller's configuration object, while the
success, engine-error and missing-output paths do restore it. -/
theorem C1_preview_leak_eval :
    ((generateFinalConfig defaultVideoConfig true ExitPath.cancelled).width = 640
      ∧ (generateFinalConfig defaultVideoConfig true ExitPath.cancelled).height = 360
      ∧ (generateFinalConfig defaultVideoConfig true ExitPath.cancelled).fps = 15
      ∧ (generateFinalConfig defaultVideoConfig true ExitPath.cancelled).crf = 35
      ∧ (generateFinalConfig defaultVideoConfig true ExitPath.cancelled).preset
          = "ultrafast")
    ∧ (defaultVideoConfig.width = 1920 ∧ defaultVideoConfig.height = 1080
      ∧ defaultVideoConfig.fps = 60 ∧ defaultVideoConfig.crf = 18
      ∧ defaultVideoConfig.preset = "slow")
    ∧ (generateFinalConfig defaultVideoConfig true ExitPath.launchFailure).width
        = 640
    ∧ (generateFinalConfig defaultVideoConfig true ExitPath.raisedException).width
        = 640
    ∧ ((generateFinalConfig defaultVideoConfig true ExitPath.success).width = 1920
      ∧ (generateFinalConfig defaultVideoConfig true ExitPath.success).height = 1080
      ∧ (generateFinalConfig defaultVideoConfig true ExitPath.success).fps = 60
      ∧ (generateFinalConfig defaultVideoConfig true ExitPath.success).crf = 18
      ∧ (generateFinalConfig defaultVideoConfig true ExitPath.success).preset
          = "slow")
    ∧ (generateFinalConfig defaultVideoConfig true ExitPath.engineError).width
        = 1920
    ∧ (generateFinalConfig defaultVideoConfig true ExitPath.outputMissing).width
        = 1920 := by
  decide

/-- C2: for n at least 2 images and crossfade below duration, the
cross-fade chain has exactly n minus 1 xfade clauses in index order, the
clause at position k targets index k plus 1 and carries offset
(k plus 1) times (duration minus crossfade), and the offset sequence is
strictly increasing. -/
theorem C2_crossfade_chain (cfg : VideoConfig) (images : List ImageInfo)
    (h2 : 2 ≤ images.length) (hcf : cfg.crossfade < cfg.duration) :
    (xfadeChain cfg images).length = images.length - 1
    ∧ (xfadeChain cfg images).map (fun c => (c.dstIdx, c.offset))
        = (List.range (images.length - 1)).map
            (fun (k : ℕ) => (k + 1, ((k : ℚ) + 1) * (cfg.duration - cfg.crossfade)))
    ∧ ((xfadeChain cfg images).map (fun c => c.offset)).Pairwise (· < ·) := by
  have h1 : 1 < images.length := by omega
  have hδ : 0 < cfg.duration - cfg.crossfade := by linarith
  unfold xfadeChain
  rw [if_pos h1]
  have hlen : ((images.drop 1).map (fun im => im.transition)).length
      = images.length - 1 := by simp
  have hmap := xfadeChainFrom_map cfg ((images.drop 1).map (fun im => im.transition))
    1 "[v0]" (cfg.duration - cfg.crossfade)
  rw [hlen] at hmap
  have hmap2 : (xfadeChainFrom cfg ((images.drop 1).map (fun im => im.transition))
        1 "[v0]" (cfg.duration - cfg.crossfade)).map (fun c => (c.dstIdx, c.offset))
      = (List.range (images.length - 1)).map
          (fun (k : ℕ) => (k + 1, ((k : ℚ) + 1) * (cfg.duration - cfg.crossfade))) := by
    rw [hmap]
    apply List.map_congr_left
    intro k _
    simp only [Prod.mk.injEq]
    refine ⟨by omega, by ring⟩
  refine ⟨?_, hmap2, ?_⟩
  · have := congrArg List.length hmap2
    simpa using this
  · have hoff : (xfadeChainFrom cfg ((images.drop 1).map (fun im => im.transition))
          1 "[v0]" (cfg.duration - cfg.crossfade)).map (fun c => c.offset)
        = (List.range (images.length - 1)).map
            (fun (k : ℕ) => ((k : ℚ) + 1) * (cfg.duration - cfg.crossfade)) := by
      have := congrArg (List.map Prod.snd) hmap2
      simpa [List.map_map, Function.comp] using this
    rw [hoff]
    rw [List.pairwise_map]
    apply (List.pairwise_lt_range (images.length - 1)).imp
    intro a b hab
    have hcast : (a : ℚ) + 1 < (b : ℚ) + 1 := by
      have : (a : ℚ) < (b : ℚ) := by exact_mod_cast hab
      linarith
    exact mul_lt_mul_of_pos_right hcast hδ

/-- C2 witness: the chain for three default-config images (duration 10,
crossfade 2). -/
theorem C2_crossfade_chain_witness :
    (xfadeChain defaultVideoConfig imgsThree).length = imgsThree.length - 1
    ∧ (xfadeChain defaultVideoConfig imgsThree).map (fun c => (c.dstIdx, c.offset))
        = (List.range (imgsThree.length - 1)).map
            (fun (k : ℕ) => (k + 1, ((k : ℚ) + 1)
              * (defaultVideoConfig.duration - defaultVideoConfig.crossfade)))
    ∧ ((xfadeChain defaultVideoConfig imgsThree).map (fun c => c.offset)).Pairwise
        (· < ·) :=
  C2_crossfade_chain defaultVideoConfig imgsThree (by decide)
    (by norm_num [defaultVideoConfig])

/-- C3: on a line whose time pattern matched, the recomputed percent is
min of 100 and 100 times elapsed over the estimate when the estimate is
positive, and percent is left unchanged when the estimate is not
positive. -/
theorem C3_percent_clamped (cfg : VideoConfig) (info : ProgressInfo)
    (line : LineFields) (total : ℚ) (h m : Nat) (s : ℚ)
    (ht : line.time_field = some (h, m, s)) :
    (0 < total →
      (parse_ffmpeg_progress cfg info line total).percent
        = min 100 (100 * ((h : ℚ) * 3600 + m * 60 + s) / total))
    ∧ (total ≤ 0 →
      (parse_ffmpeg_progress cfg info line total).percent = info.percent) := by
  constructor
  · intro hpos
    unfold parse_ffmpeg_progress
    rw [ht, applySpeed_percent,
      applyTime_percent_pos cfg total _ h m s hpos]
    congr 1
    ring
  · intro hnp
    unfold parse_ffmpeg_progress
    rw [ht, applySpeed_percent,
      applyTime_percent_nonpos cfg total _ h m s (not_lt.mpr hnp),
      applyFps_percent, applyFrame_percent]

/-- C3 witness: the spec round-trip line (frame 120, fps 30, elapsed 4
seconds, speed 2) against a 40 second estimate yields percent 10. -/
theorem C3_percent_clamped_witness :
    (parse_ffmpeg_progress defaultVideoConfig {} lineTime 40).percent = 10 := by
  have h := (C3_percent_clamped defaultVideoConfig {} lineTime 40 0 0 4 rfl).1
    (by norm_num)
  rw [h]
  norm_num [min_def]

/-- C4: under the alternate zoom policy and the alternate pan policy,
every image produced by prepare_images is zoom-in exactly when its index
is even and pans left-to-right exactly when its index is even (so
indices 0 and 2 always receive identical assignments). -/
theorem C4_alternate_parity (cfg : VideoConfig)
    (shuffleOracle : List String → List String) (zc pc : Nat → Bool)
    (td : Nat → String) (paths : List String) (imgs : List ImageInfo)
    (hz : cfg.zoom_direction = "alternate")
    (hp : cfg.pan_direction = "alternate")
    (hok : prepare_images cfg shuffleOracle zc pc td paths = Except.ok imgs) :
    ∀ img ∈ imgs, (img.zoom_in = true ↔ img.index % 2 = 0)
      ∧ (img.pan_left_to_right = true ↔ img.index % 2 = 0) := by
  unfold prepare_images at hok
  by_cases he : paths = []
  · rw [if_pos he] at hok
    exact absurd hok (by simp)
  · rw [if_neg he] at hok
    have himgs : imgs = prepareAux cfg zc pc td 0
        (if cfg.shuffle then shuffleOracle paths
         else if cfg.reverse then paths.reverse else paths) := by
      have := hok
      simp only [Except.ok.injEq] at this
      exact this.symm
    subst himgs
    intro img hmem
    exact prepareAux_parity cfg zc pc td hz hp _ 0 img hmem

/-- C4 witness: the third image of a three-image default-config run has
even index 2 and is assigned zoom-in and left-to-right pan. -/
theorem C4_alternate_parity_witness :
    ((⟨"c", 2, true, true, "fade"⟩ : ImageInfo).zoom_in = true
        ↔ (⟨"c", 2, true, true, "fade"⟩ : ImageInfo).index % 2 = 0)
    ∧ ((⟨"c", 2, true, true, "fade"⟩ : ImageInfo).pan_left_to_right = true
        ↔ (⟨"c", 2, true, true, "fade"⟩ : ImageInfo).index % 2 = 0) :=
  C4_alternate_parity defaultVideoConfig (fun l => l) (fun _ => true)
    (fun _ => true) (fun _ => "fade") ["a", "b", "c"] imgsThree rfl rfl
    (by rfl) ⟨"c", 2, true, true, "fade"⟩ (by decide)

/-- C5 counterexample: with duration 1 and crossfade 3 and two images,
the claimed bare formula gives minus 1 while estimate_duration returns
the clamped value 0. -/
theorem C5_counterexample :
    estimate_duration cfgShortFade none imgsTwo = 0
    ∧ cfgShortFade.duration * (2 : ℚ) - cfgShortFade.crossfade * ((2 : ℚ) - 1)
        = -1
    ∧ estimate_duration cfgShortFade none imgsTwo
        ≠ cfgShortFade.duration * (2 : ℚ)
            - cfgShortFade.crossfade * ((2 : ℚ) - 1) := by
  have hraw : rawEstimate cfgShortFade none imgsTwo = -1 := by
    norm_num [rawEstimate, cfgShortFade, imgsTwo, titleAddition]
  have h0 : estimate_duration cfgShortFade none imgsTwo = 0 := by
    rw [estimate_duration_eq_max cfgShortFade none imgsTwo (by simp [imgsTwo]),
      hraw]
    norm_num
  have hform : cfgShortFade.duration * (2 : ℚ)
      - cfgShortFade.crossfade * ((2 : ℚ) - 1) = -1 := by
    norm_num [cfgShortFade]
  refine ⟨h0, hform, ?_⟩
  rw [h0, hform]
  norm_num

/-- C5 amended: for a non-empty prepared list, estimate_duration returns
the formula n times duration minus (n minus 1) times crossfade plus the
enabled title duration, clamped below at zero (and zero for an empty
list); with duration 10, crossfade 2 and no title this gives 10 for one
image and 42 for five. -/
theorem C5_estimate_formula (cfg : VideoConfig) (title : Option TitleConfig)
    (images : List ImageInfo) (h : images ≠ []) :
    estimate_duration cfg title images = max 0 (rawEstimate cfg title images) :=
  estimate_duration_eq_max cfg title images h

/-- C5 witness: five default-config images give the 42 second estimate. -/
theorem C5_estimate_formula_witness :
    estimate_duration defaultVideoConfig none imgsFive = 42 := by
  rw [C5_estimate_formula defaultVideoConfig none imgsFive (by simp [imgsFive])]
  norm_num [rawEstimate, defaultVideoConfig, imgsFive, titleAddition]

/-- C6: each snapshot field whose pattern did not match the consumed
line keeps its prior value; in particular a line with no time field
leaves time, percent and eta unchanged while frame, fps and speed take
the line's value when present and keep the prior value otherwise. -/
theorem C6_unmatched_fields (cfg : VideoConfig) (info : ProgressInfo)
    (line : LineFields) (total : ℚ) :
    (line.frame_field = none →
      (parse_ffmpeg_progress cfg info line total).frame = info.frame)
    ∧ (line.fps_field = none →
      (parse_ffmpeg_progress cfg info line total).fps = info.fps)
    ∧ (line.speed_field = none →
      (parse_ffmpeg_progress cfg info line total).speed = info.speed)
    ∧ (line.time_field = none →
      (parse_ffmpeg_progress cfg info line total).time_encoded = info.time_encoded
      ∧ (parse_ffmpeg_progress cfg info line total).percent = info.percent
      ∧ (parse_ffmpeg_progress cfg info line total).eta_seconds = info.eta_seconds
      ∧ (parse_ffmpeg_progress cfg info line total).frame
          = line.frame_field.getD info.frame
      ∧ (parse_ffmpeg_progress cfg info line total).fps
          = line.fps_field.getD info.fps) := by
  refine ⟨?_, ?_, ?_, ?_⟩
  · intro hf
    unfold parse_ffmpeg_progress
    rw [applySpeed_frame, applyTime_frame, applyFps_frame, hf]
    rfl
  · intro hq
    unfold parse_ffmpeg_progress
    rw [applySpeed_fps, applyTime_fps, hq]
    simp only [applyFps]
    rw [applyFrame_fps]
  · intro hs
    unfold parse_ffmpeg_progress
    rw [hs]
    simp only [applySpeed]
    rw [applyTime_speed]
    cases line.frame_field <;> cases line.fps_field
      <;> simp [applyFrame, applyFps]
  · intro ht
    unfold parse_ffmpeg_progress
    rw [ht, applyTime_none]
    cases hf : line.frame_field <;> cases hq : line.fps_field
      <;> cases hs : line.speed_field
      <;> simp [applyFrame, applyFps, applySpeed]

/-- C6 witness: a line carrying only frame 120 and fps 30 leaves the
prior time 33, percent 55 and eta 12 unchanged while updating frame,
fps, and keeping the prior speed 9. -/
theorem C6_unmatched_fields_witness :
    (parse_ffmpeg_progress defaultVideoConfig infoPrev lineNoTime 40).time_encoded
        = 33
    ∧ (parse_ffmpeg_progress defaultVideoConfig infoPrev lineNoTime 40).percent = 55
    ∧ (parse_ffmpeg_progress defaultVideoConfig infoPrev lineNoTime 40).eta_seconds
        = 12
    ∧ (parse_ffmpeg_progress defaultVideoConfig infoPrev lineNoTime 40).frame = 120
    ∧ (parse_ffmpeg_progress defaultVideoConfig infoPrev lineNoTime 40).fps = 30
    ∧ (parse_ffmpeg_progress defaultVideoConfig infoPrev lineNoTime 40).speed
        = 9 := by
  have h := C6_unmatched_fields defaultVideoConfig infoPrev lineNoTime 40
  have ht := h.2.2.2 rfl
  exact ⟨ht.1, ht.2.1, ht.2.2.1, ht.2.2.2.1, ht.2.2.2.2, h.2.2.1 rfl⟩

/-- C7 counterexample: with an existing supported audio file and a
non-existent image source path, generate fails as NoImagesFound, not as
the claimed InputNotFound. -/
theorem C7_counterexample :
    pathExists fsAudioOnly "imgs" = false
    ∧ (generate_preflight fsAudioOnly "imgs" "song.mp3").error
        = some GenError.noImagesFound
    ∧ GenError.noImagesFound ≠ GenError.inputNotFound := by
  decide

/-- C7 amended: a non-existent audio path fails as InputNotFound; an
existing audio path with an unsupported extension fails as
UnsupportedFormat; otherwise an image source yielding no images
(including a non-existent image path) fails as NoImagesFound; every such
failure is reported without launching the subprocess. -/
theorem C7_preflight_classification (fs : FileSystem)
    (image_path audio_path : String) :
    (pathExists fs audio_path = false →
      generate_preflight fs image_path audio_path
        = { error := some GenError.inputNotFound, launched := false })
    ∧ (pathExists fs audio_path = true →
      SUPPORTED_AUDIO.contains (strLower (pathSuffix audio_path)) = false →
      generate_preflight fs image_path audio_path
        = { error := some GenError.unsupportedFormat, launched := false })
    ∧ (pathExists fs audio_path = true →
      SUPPORTED_AUDIO.contains (strLower (pathSuffix audio_path)) = true →
      find_images fs image_path = [] →
      generate_preflight fs image_path audio_path
        = { error := some GenError.noImagesFound, launched := false })
    ∧ ((generate_preflight fs image_path audio_path).error ≠ none →
      (generate_preflight fs image_path audio_path).launched = false) := by
  refine ⟨?_, ?_, ?_, ?_⟩
  · intro h
    unfold generate_preflight
    rw [if_pos h]
  · intro h1 h2
    unfold generate_preflight
    rw [if_neg (by rw [h1]; decide), if_pos h2]
  · intro h1 h2 h3
    unfold generate_preflight
    rw [if_neg (by rw [h1]; decide), if_neg (by rw [h2]; decide), if_pos h3]
  · intro h
    rcases preflight_launched fs image_path audio_path with hl | he
    · exact hl
    · exact absurd he h

/-- C7 witness: on an empty filesystem the audio path does not exist and
generate fails as InputNotFound before any launch. -/
theorem C7_preflight_classification_witness :
    generate_preflight fsEmptyFS "imgs" "song.mp3"
      = { error := some GenError.inputNotFound, launched := false } :=
  (C7_preflight_classification fsEmptyFS "imgs" "song.mp3").1 (by decide)

/-- C8 counterexample: the directory d contains a.Jpg, whose lowercased
extension .jpg is in the supported set, yet find_images returns the
empty list: directory matching covers only all-lowercase and
all-uppercase extension spellings, so it is not case-insensitive. -/
theorem C8_counterexample :
    fsMixedCase.isDir "d" = true
    ∧ "d/a.Jpg" ∈ fsMixedCase.dirEntries "d"
    ∧ SUPPORTED_FORMATS.contains (strLower (pathSuffix "d/a.Jpg")) = true
    ∧ find_images fsMixedCase "d" = [] := by
  decide

/-- C8 amended: a single-file input is matched case-insensitively (one
element when its lowercased extension is supported, else empty); a
directory input returns exactly the entries ending in an all-lowercase
or all-uppercase supported extension, lexicographically sorted and
duplicate-free (mixed-case spellings are missed); any other path yields
the empty list. -/
theorem C8_discovery (fs : FileSystem) (p : String) :
    (fs.isFile p = true →
      find_images fs p
        = if SUPPORTED_FORMATS.contains (strLower (pathSuffix p))
          then [p] else [])
    ∧ (fs.isFile p = false → fs.isDir p = true →
      (find_images fs p).Pairwise (fun a b => strLe a b = true)
      ∧ (find_images fs p).Nodup
      ∧ (∀ x, x ∈ find_images fs p
          ↔ ∃ ext ∈ SUPPORTED_FORMATS, x ∈ fs.dirEntries p
              ∧ (strEndsWith x ext = true ∨ strEndsWith x (strUpper ext) = true)))
    ∧ (fs.isFile p = false → fs.isDir p = false → find_images fs p = []) := by
  refine ⟨?_, ?_, ?_⟩
  · intro h
    simp [find_images, h]
  · intro h1 h2
    have hdef : find_images fs p
        = sortStrings ((globCollect (fs.dirEntries p) SUPPORTED_FORMATS).dedup) := by
      simp [find_images, h1, h2]
    refine ⟨?_, ?_, ?_⟩
    · rw [hdef]; exact pairwise_sortStrings _
    · rw [hdef]; exact nodup_sortStrings (List.nodup_dedup _)
    · intro x
      rw [hdef, mem_sortStrings, List.mem_dedup]
      exact mem_globCollect (fs.dirEntries p) SUPPORTED_FORMATS
  · intro h1 h2
    simp [find_images, h1, h2]

/-- C8 witness: the single file photo.PNG is matched despite its
upper-case extension. -/
theorem C8_discovery_witness :
    find_images fsSingleFile "photo.PNG" = ["photo.PNG"] :=
  ((C8_discovery fsSingleFile "photo.PNG").1 (by decide)).trans (by decide)

/-- C9: estimate_duration is never negative, and whenever the unclamped
formula is negative the returned value is the clamp 0. -/
theorem C9_estimate_nonneg :
    (∀ (cfg : VideoConfig) (title : Option TitleConfig)
       (images : List ImageInfo), 0 ≤ estimate_duration cfg title images)
    ∧ (∀ (cfg : VideoConfig) (title : Option TitleConfig)
       (images : List ImageInfo), rawEstimate cfg title images < 0 →
         estimate_duration cfg title images = 0) := by
  constructor
  · intro cfg title images
    unfold estimate_duration
    split
    · exact le_refl 0
    · dsimp only
      exact le_max_left 0 _
  · intro cfg title images hneg
    by_cases he : images = []
    · simp [estimate_duration, he]
    · rw [estimate_duration_eq_max cfg title images he]
      exact max_eq_left (le_of_lt hneg)

/-- C9 witness: with duration 1, crossfade 3 and two images the raw
formula is negative and the estimate is clamped to 0. -/
theorem C9_estimate_nonneg_witness :
    estimate_duration cfgShortFade none imgsTwo = 0 :=
  C9_estimate_nonneg.2 cfgShortFade none imgsTwo
    (by norm_num [rawEstimate, cfgShortFade, imgsTwo, titleAddition])

/-- C10: generate resets the stop flag at entry, so its outcome is
independent of any cancel request made before the call; with no request
during the run the pump completes, and a request first visible at poll k
within the stream cancels exactly at that poll. -/
theorem C10_entry_reset :
    (∀ (pre1 pre2 : Bool) (c : Option Nat) (n : Nat),
       generate_outcome pre1 c n = generate_outcome pre2 c n)
    ∧ (∀ (pre : Bool) (n : Nat),
       generate_outcome pre none n = PumpResult.completed)
    ∧ (∀ (pre : Bool) (k n : Nat), k ≤ n →
       generate_outcome pre (some k) n = PumpResult.cancelled k) := by
  refine ⟨fun _ _ _ _ => rfl, fun _ n => pumpLoop_no_cancel n 0, ?_⟩
  intro pre k n hk
  exact pumpLoop_cancel n 0 k (Nat.zero_le k) (by omega)

/-- C10 witness: a pre-call cancel request is discarded, and a request
visible at poll 2 of a 5 line run cancels at iteration 2. -/
theorem C10_entry_reset_witness :
    generate_outcome true (some 2) 5 = PumpResult.cancelled 2 :=
  C10_entry_reset.2.2 true 2 5 (by decide)

end PanZoom
